import Mathlib

/-!
Verification of the shafika Ethereum-indexer pipeline.

Shallow embedding of the queue layer (libs/common/src/common/queue.py), the
failed-job store (libs/common/src/common/failedjob.py), the block processor
(services/block-processor/src/blockprocessor/processor.py), the log poller
(services/log-poller/src/logpoller/logpoller.py), the log processor
(services/log-processor/src/logprocessor/logprocessor.py) and the DEX helper
(libs/common/src/common/dex.py), together with theorems settling the listed
behavioural claims.
-/

namespace Shafika

/-! ### Generic helpers: Python-style hex parsing and big-endian words -/

/-- ASCII lowercase of one character, as Python `str.lower` acts on the
hex-and-ascii strings this codebase handles. -/
def charLower (c : Char) : Char :=
  if 'A' ≤ c ∧ c ≤ 'Z' then Char.ofNat (c.toNat + 32) else c

/-- Python `s.lower()` on ASCII strings. -/
def pyLower (s : String) : String :=
  String.mk (s.data.map charLower)

/-- Python `s.startswith(p)`. -/
def pyStartsWith (s p : String) : Bool :=
  p.data.isPrefixOf s.data

/-- Lexicographic (code-point) comparison of character lists, as Python
orders strings. -/
def charListLt : List Char → List Char → Bool
  | [], [] => false
  | [], _ :: _ => true
  | _ :: _, [] => false
  | a :: as, b :: bs =>
    if a < b then true else if b < a then false else charListLt as bs

/-- Python `a < b` on strings. -/
def pyStrLt (a b : String) : Bool :=
  charListLt a.data b.data

/-- Value of one hexadecimal digit, as in Python's `int(_, 16)` machinery. -/
def hexDigitVal? (c : Char) : Option Nat :=
  if '0' ≤ c ∧ c ≤ '9' then some (c.toNat - 48)
  else if 'a' ≤ c ∧ c ≤ 'f' then some (c.toNat - 87)
  else if 'A' ≤ c ∧ c ≤ 'F' then some (c.toNat - 55)
  else none

/-- Fold hex digits into a number; fails on any non-hex character. -/
def hexDigitsAux : List Char → Nat → Option Nat
  | [], acc => some acc
  | c :: cs, acc =>
    match hexDigitVal? c with
    | some v => hexDigitsAux cs (acc * 16 + v)
    | none => none

/-- Python `int(s, 16)`: an optional `0x`/`0X` prefix followed by at least one
hex digit; `none` models the `ValueError` raised on malformed input. -/
def parseHexNat? (s : String) : Option Nat :=
  let cs := if pyStartsWith s "0x" || pyStartsWith s "0X" then s.data.drop 2 else s.data
  match cs with
  | [] => none
  | _ => hexDigitsAux cs 0

/-- Python `int(s)` on decimal text; `none` models the `ValueError`. -/
def parseDecNat? (s : String) : Option Nat :=
  match s.data with
  | [] => none
  | cs =>
    cs.foldlM (fun acc c =>
      if '0' ≤ c ∧ c ≤ '9' then some (acc * 10 + (c.toNat - 48)) else none) 0

/-- Python `bytes.fromhex`: pairs of hex digits; `none` models the
`ValueError` raised on odd length or non-hex characters. -/
def hexPairsToBytes : List Char → Option (List Nat)
  | [] => some []
  | [_] => none
  | c1 :: c2 :: rest =>
    match hexDigitVal? c1, hexDigitVal? c2, hexPairsToBytes rest with
    | some hi, some lo, some bs => some ((16 * hi + lo) :: bs)
    | _, _, _ => none

/-- `bytes.fromhex(data[2:])` as used by the log handlers on `0x`-prefixed
payloads. -/
def dataBytes? (data : String) : Option (List Nat) :=
  hexPairsToBytes (data.data.drop 2)

/-- Big-endian byte fold, Python `int.from_bytes(bs, "big")`. -/
def beWord (bs : List Nat) : Nat :=
  bs.foldl (fun acc b => acc * 256 + b) 0

/-- `int.from_bytes(data_bytes[off:off+32], "big")`: like the Python slice, a
short tail simply yields fewer bytes. -/
def wordAt (bs : List Nat) (off : Nat) : Nat :=
  beWord ((bs.drop off).take 32)

/-- Last `n` characters of a string, Python `s[-n:]`. -/
def lastChars (n : Nat) (s : String) : String :=
  String.mk (s.data.drop (s.data.length - n))

/-- Python truthiness of an optional string (`None` and `""` are falsy). -/
def pyTruthy (o : Option String) : Bool :=
  match o with
  | none => false
  | some s => !(s = "")

/-! ### Block processor: `_parse_transaction` (processor.py 216-239)

`TxData` mirrors the web3 transaction dict fields the processor touches,
together with the EIP-1559 fields (`type`, `maxFeePerGas`,
`maxPriorityFeePerGas`) that a type-2 transaction carries. -/

structure TxData where
  hash : String
  from_address : Option String
  to_address : Option String
  value : Option Nat
  gas : Option Nat
  gasPrice : Option Nat
  input : Option String
  txnType : Option Nat
  maxFeePerGas : Option Nat
  maxPriorityFeePerGas : Option Nat
deriving Repr, DecidableEq

/-- The columns of `db.models.models.Transaction` that
`_parse_transaction` populates (models.py 68-81).  The model has no
effective-gas-price, max-fee or transaction-type column. -/
structure Transaction where
  tx_hash : String
  block_number : Nat
  block_hash : String
  block_timestamp : Nat
  from_address : Option String
  to_address : Option String
  value : Nat
  value_usd : Option ℚ
  gas_used : Option Nat
  gas_price : Nat
  input : Option String
  status : Nat
deriving Repr, DecidableEq

/-- `BlockProcessor._parse_transaction`: the ETH price comes from the token
service (modelled as the `ethPrice` argument); `from_wei` divides by `10^18`;
`gas_used` is taken from the transaction's `gas` field and `gas_price` from
`gasPrice` (default 0).  No other field of `tx` is read. -/
def parse_transaction (ethPrice : Option ℚ) (tx : TxData)
    (blockNumber : Nat) (blockHash : String) (blockTs : Nat) : Transaction :=
  let txValue := tx.value.getD 0
  let wei : ℚ := (txValue : ℚ) / (10 : ℚ) ^ (18 : ℕ)
  let valueUsd : Option ℚ := ethPrice.map (fun p => wei * p)
  { tx_hash := tx.hash
    block_number := blockNumber
    block_hash := blockHash
    block_timestamp := blockTs
    from_address := tx.from_address
    to_address := tx.to_address
    value := txValue
    value_usd := valueUsd
    gas_used := tx.gas
    gas_price := tx.gasPrice.getD 0
    input := tx.input
    status := 1 }

/-- The effective gas price the specification prescribes (spec section 3):
`min(max_fee_per_gas, base_fee_per_gas + max_priority_fee_per_gas)` for
type-2 transactions and `gas_price` for legacy ones.  Stated from the spec's
words, for comparison against `parse_transaction`. -/
def specEffectiveGasPrice (baseFeePerGas : Nat) (tx : TxData) : Nat :=
  if tx.txnType = some 2 then
    min (tx.maxFeePerGas.getD 0) (baseFeePerGas + tx.maxPriorityFeePerGas.getD 0)
  else
    tx.gasPrice.getD 0

/-! ### Block processor: canonicality check (processor.py 136-154) -/

/-- The `Block` row fields the canonicality check touches. -/
structure BlockRecord where
  block_number : Nat
  block_hash : String
  canonical : Bool
deriving Repr, DecidableEq

/-- Outcome of the canonicality section of `process_block`: the (optional)
mutated `Block` row, the local `block_hash` variable afterwards, and whether
the reorg warning was printed. -/
structure CanonResult where
  record : Option BlockRecord
  blockHashVar : String
  reorgWarning : Bool
deriving Repr, DecidableEq

/-- Lines 136-154 of `process_block`: `actual_hash` is the hash fetched via
`get_block(number)`, `blockHash` the job's hash.  On mismatch the warning is
printed, the local variable and the row's hash are rewritten to the fetched
hash and `canonical` is set; in both cases `canonical` is set whenever the
row exists. -/
def process_block_canonical (blockHash actualHash : String)
    (blockRecord : Option BlockRecord) : CanonResult :=
  if actualHash = blockHash then
    { record := blockRecord.map (fun r => { r with canonical := true })
      blockHashVar := blockHash
      reorgWarning := false }
  else
    { record := blockRecord.map
        (fun r => { r with block_hash := actualHash, canonical := true })
      blockHashVar := actualHash
      reorgWarning := true }

/-! ### Failed-job store and the retry-success path (processor.py 60-69,
failedjob.py 74-93) -/

/-- The methods `FailedJobManager` defines (failedjob.py).  Attribute lookup
on an instance succeeds exactly for these names. -/
def failedJobManagerMethods : List String :=
  ["record", "redrive_failed_blocks", "remove_failed_block_record"]

/-- `FailedJobManager.remove_failed_block_record`: delete the rows whose
`job_id` matches and report whether any row was deleted. -/
def remove_failed_block_record (failedJobs : List String) (jobId : String) :
    List String × Bool :=
  (failedJobs.filter (fun j => j ≠ jobId), decide (jobId ∈ failedJobs))

/-- `FailedJobManager.record`: insert a row keyed by the unique `job_id`;
when a row with that id already exists the insert raises `IntegrityError`,
the session is rolled back and `False` is returned. -/
def record_failed_job (failedJobs : List String) (jobId : String) :
    List String × Bool :=
  if jobId ∈ failedJobs then (failedJobs, false) else (failedJobs ++ [jobId], true)

/-- State after the retry-success path of `BlockProcessor.run`. -/
structure RetrySuccessOutcome where
  failedJobs : List String
  attributeErrorRaised : Bool
  criticalLogged : Bool
deriving Repr, DecidableEq

/-- `BlockProcessor.run`, lines 60-77, on a job with `status == "retrying"`
whose `process_block` call succeeded: `delete_job` has run, then
`self.failed_job.remove_failed_job(job_id)` is dispatched by attribute name.
If the attribute existed the dead-letter row would be deleted
(`remove_failed_block_record` body); since it does not, the `AttributeError`
lands in the `except` branch, which calls `self.failed_job.record(job_id,
job, str(e))` - an insert that hits the unique `job_id` constraint of the
still-present row and returns `False`, so the CRITICAL message is printed. -/
def run_retry_success (jobId : String) (failedJobs : List String) :
    RetrySuccessOutcome :=
  if failedJobManagerMethods.contains "remove_failed_job" then
    { failedJobs := (remove_failed_block_record failedJobs jobId).1
      attributeErrorRaised := false
      criticalLogged := false }
  else
    let (fj, ok) := record_failed_job failedJobs jobId
    { failedJobs := fj
      attributeErrorRaised := true
      criticalLogged := !ok }

/-! ### Queue layer: `bl_pop_block` / `bl_pop_log` (queue.py 23-43) -/

/-- Python `json.loads` applied to the result of `redis.get`: a present
payload (a string) parses, `None` raises `TypeError`. -/
def json_loads (s : Option String) : Except String String :=
  match s with
  | some str => Except.ok str
  | none => Except.error "TypeError: the JSON object must be of type str, bytes or bytearray, not NoneType"

/-- `RedisQueueManager.bl_pop_block`: `blpop` yields `queuedJobId` (already
`none` on timeout); then the payload is fetched with `get` and passed to
`json.loads` unconditionally. -/
def bl_pop_block (queuedJobId : Option String) (store : String → Option String) :
    Except String (Option String × Option String) :=
  match queuedJobId with
  | none => Except.ok (none, none)
  | some jobId =>
    match json_loads (store jobId) with
    | Except.ok payload => Except.ok (some jobId, some payload)
    | Except.error e => Except.error e

/-- `RedisQueueManager.bl_pop_log`: same body as `bl_pop_block`. -/
def bl_pop_log (queuedJobId : Option String) (store : String → Option String) :
    Except String (Option String × Option String) :=
  bl_pop_block queuedJobId store

/-! ### Log processor: shared job shape and small parsers
(logprocessor.py 452-492) -/

/-- A JSON scalar as it arrives in a log-job field: pollers send some fields
as hex strings, the backfill endpoint sends integers, and a field may be
null. -/
inductive JVal where
  | num (n : Nat)
  | str (s : String)
  | null
deriving Repr, DecidableEq

/-- A dequeued log job (the `LogJob` TypedDict of models.py as the handlers
read it). -/
structure LogJob where
  address : String
  block_number : Nat
  block_hash : String
  block_timestamp : JVal
  data : String
  log_index : JVal
  topics : List String
  transaction_hash : String
  transaction_index : JVal
deriving Repr, DecidableEq

/-- `LogProcessor._parse_log_index`: an int is returned as is, a string goes
through `int(_, 16)` (whose `ValueError` propagates), anything else maps
to 0. -/
def parse_log_index (v : JVal) : Except String Nat :=
  match v with
  | JVal.num n => Except.ok n
  | JVal.str s =>
    match parseHexNat? s with
    | some n => Except.ok n
    | none => Except.error "ValueError: invalid literal for int() with base 16"
  | JVal.null => Except.ok 0

/-- `LogProcessor._parse_timestamp`: hex string, decimal string or int;
`None` and any parse failure fall back to `datetime.now()`, modelled by the
`now` argument. -/
def parse_timestamp (now : Nat) (v : JVal) : Nat :=
  match v with
  | JVal.null => now
  | JVal.num n => n
  | JVal.str s =>
    if pyStartsWith s "0x" then (parseHexNat? s).getD now
    else (parseDecNat? s).getD now

/-- `LogProcessor._parse_int`: `None` stays `None`, ints pass through,
strings go through `int(_, 16)` (raising on malformed input). -/
def parse_int (v : JVal) : Except String (Option Nat) :=
  match v with
  | JVal.null => Except.ok none
  | JVal.num n => Except.ok (some n)
  | JVal.str s =>
    match parseHexNat? s with
    | some n => Except.ok (some n)
    | none => Except.error "ValueError: invalid literal for int() with base 16"

/-- `LogProcessor._decode_address`: `None` for an empty or short topic,
otherwise `0x` followed by the lowercased last 40 characters. -/
def decode_address (topic : String) : Option String :=
  if topic.data.length < 42 then none
  else some ("0x" ++ pyLower (lastChars 40 topic))

/-- The burn/mint address excluded from stats updates
(logprocessor.py 367-382). -/
def ZERO_ADDRESS : String := "0x0000000000000000000000000000000000000000"

/-! ### Log processor: rows and database writes -/

/-- The `Transfer` columns `_save_transfer` populates from its kwargs. -/
structure TransferRow where
  tx_hash : String
  log_index : Nat
  transaction_index : Option Nat
  block_number : Nat
  block_hash : String
  block_timestamp : Nat
  token_address : String
  token_type : String
  token_symbol : Option String
  token_decimals : Option Nat
  token_id : Option Nat
  from_address : Option String
  to_address : Option String
  amount : Nat
  normalized_amount : Option ℚ
  raw_log : LogJob
deriving Repr, DecidableEq

/-- The `Swap` columns the swap handlers populate.  `log_index` and
`transaction_index` are stored as the raw job values, without parsing. -/
structure SwapRow where
  transaction_hash : String
  log_index : JVal
  block_number : Nat
  block_timestamp : Nat
  transaction_index : JVal
  dex_name : String
  pool_address : String
  token0_address : String
  token1_address : String
  amount0_in : String
  amount1_in : String
  amount0_out : String
  amount1_out : String
  sender : String
  recipient : String
deriving Repr, DecidableEq

/-- One SQL statement issued by a log handler. -/
inductive DbWrite where
  | insertTransfer (t : TransferRow)
  | upsertStats (address : String) (sent : Bool) (blockNumber : Nat)
  | upsertNft (tokenAddress : String) (tokenId : Nat) (owner : String)
      (blockNumber : Nat) (txHash : String)
  | insertSwap (s : SwapRow)
deriving Repr, DecidableEq

/-- The conditional stats update of `_save_transfer`
(`if from_address and from_address != "0x000...0": ...`). -/
def statWrite (addr : Option String) (sent : Bool) (blockNumber : Nat) :
    List DbWrite :=
  match addr with
  | some a => if pyTruthy (some a) ∧ a ≠ ZERO_ADDRESS
      then [DbWrite.upsertStats a sent blockNumber] else []
  | none => []

/-- `LogProcessor._save_transfer`: one session containing the transfer insert
followed by the sender stats upsert (`sent=True`) and then the receiver
stats upsert (`sent=False`), in that textual order. -/
def save_transfer (t : TransferRow) : List DbWrite :=
  DbWrite.insertTransfer t ::
    (statWrite t.from_address true t.block_number
      ++ statWrite t.to_address false t.block_number)

/-- `LogProcessor._create_nft_metadata`: its own session holding one
insert-or-update of the `(token_address, token_id)` row. -/
def create_nft_metadata (tokenAddress : String) (tokenId : Nat)
    (owner : String) (blockNumber : Nat) (txHash : String) : List DbWrite :=
  [DbWrite.upsertNft tokenAddress tokenId owner blockNumber txHash]

/-- The environment a handler consults: the token-metadata service
(`get_metadata(address, token_type)` yielding `(symbol, decimals)`), the
pool token lookup (`("", "")` on RPC failure), the pool factory lookup
(`None` on failure) and the wall clock used by `_parse_timestamp`. -/
structure LogEnv where
  tokenMeta : String → String → Option String × Option Nat
  poolTokens : String → String × String
  poolFactory : String → Option String
  now : Nat

/-! ### Log processor: ERC-20 / ERC-721 Transfer handler
(logprocessor.py 143-215) -/

/-- `LogProcessor._process_erc20_or_erc721_transfer`.  Returns the list of
database transactions (sessions) the handler opens: the `_save_transfer`
session, then for ERC-721 the separate `_create_nft_metadata` session.
Errors propagate to `run` as `Except.error`. -/
def process_erc20_or_erc721_transfer (env : LogEnv) (job : LogJob) :
    Except String (List (List DbWrite)) :=
  if job.topics.length < 3 then Except.ok []
  else do
    let tokenAddress := job.address
    let txHash := job.transaction_hash
    let logIndex ← parse_log_index job.log_index
    let fromAddress := decode_address (job.topics.getD 1 "")
    let toAddress := decode_address (job.topics.getD 2 "")
    let eventData := job.data
    let (tokenType, tokenId, amount) ←
      if job.topics.length = 4 then do
        match parseHexNat? (job.topics.getD 3 "") with
        | some tid => Except.ok ("erc721", some tid, 1)
        | none => Except.error "ValueError: invalid literal for int() with base 16"
      else do
        let amt ←
          if eventData ≠ "0x" then
            match parseHexNat? eventData with
            | some a => Except.ok a
            | none => Except.error "ValueError: invalid literal for int() with base 16"
          else Except.ok 0
        Except.ok ("erc20", (none : Option Nat), amt)
    let (tokenSymbol, tokenDecimals) := env.tokenMeta tokenAddress tokenType
    let normalizedAmount : Option ℚ :=
      if tokenType = "erc20" ∧ tokenDecimals ≠ none ∧ 0 < tokenDecimals.getD 0 then
        some ((amount : ℚ) / (10 : ℚ) ^ tokenDecimals.getD 0)
      else if tokenType = "erc721" then some 1
      else none
    let blockNumber := job.block_number
    let blockTimestamp := parse_timestamp env.now job.block_timestamp
    let transactionIndex ← parse_int job.transaction_index
    let row : TransferRow :=
      { tx_hash := txHash
        log_index := logIndex
        transaction_index := transactionIndex
        block_number := blockNumber
        block_hash := job.block_hash
        block_timestamp := blockTimestamp
        token_address := pyLower tokenAddress
        token_type := tokenType
        token_symbol := tokenSymbol
        token_decimals := tokenDecimals
        token_id := tokenId
        from_address := fromAddress
        to_address := toAddress
        amount := amount
        normalized_amount := normalizedAmount
        raw_log := job }
    let nftTxns :=
      if tokenType = "erc721" ∧ tokenId ≠ none ∧ pyTruthy toAddress then
        [create_nft_metadata (pyLower tokenAddress) (tokenId.getD 0)
          (pyLower (toAddress.getD "")) blockNumber txHash]
      else []
    Except.ok ([save_transfer row] ++ nftTxns)

/-! ### Canonical ABI decoding of `(uint256[], uint256[])`
(`eth_abi.abi.decode` as invoked at logprocessor.py 294) -/

/-- Read one 32-byte big-endian word, failing when fewer than 32 bytes are
available (eth_abi's `InsufficientDataBytes`). -/
def readWord? (bs : List Nat) (off : Nat) : Option Nat :=
  if off + 32 ≤ bs.length then some (wordAt bs off) else none

/-- Read `n` consecutive 32-byte words starting at `off`. -/
def readWords? (bs : List Nat) (off : Nat) : Nat → Option (List Nat)
  | 0 => some []
  | n + 1 =>
    match readWord? bs off, readWords? bs (off + 32) n with
    | some w, some ws => some (w :: ws)
    | _, _ => none

/-- Read a dynamic `uint256[]`: 32-byte length followed by that many
words. -/
def readUintArray? (bs : List Nat) (off : Nat) : Option (List Nat) :=
  match readWord? bs off with
  | some n => readWords? bs (off + 32) n
  | none => none

/-- `decode(["uint256[]", "uint256[]"], data_bytes)`: a two-word head of
byte offsets, each pointing at a length-prefixed array. -/
def abiDecodeUintArrayPair (bs : List Nat) : Option (List Nat × List Nat) :=
  match readWord? bs 0, readWord? bs 32 with
  | some off0, some off1 =>
    match readUintArray? bs off0, readUintArray? bs off1 with
    | some ids, some vals => some (ids, vals)
    | _, _ => none
  | _, _ => none

/-! ### Log processor: ERC-1155 TransferBatch handler
(logprocessor.py 274-352) -/

/-- The transfer row built for batch item `i` carrying `(tokenId, amount)`. -/
def batchTransferRow (env : LogEnv) (job : LogJob)
    (fromAddress toAddress : Option String) (baseLogIndex : Nat)
    (transactionIndex : Option Nat) (i tokenId amount : Nat) : TransferRow :=
  { tx_hash := job.transaction_hash
    log_index := baseLogIndex * 1000 + i
    transaction_index := transactionIndex
    block_number := job.block_number
    block_hash := job.block_hash
    block_timestamp := parse_timestamp env.now job.block_timestamp
    token_address := pyLower job.address
    token_type := "erc1155"
    token_symbol := (env.tokenMeta job.address "erc1155").1
    token_decimals := none
    token_id := some tokenId
    from_address := fromAddress
    to_address := toAddress
    amount := amount
    normalized_amount := some (amount : ℚ)
    raw_log := job }

/-- The sessions one loop iteration of the batch handler opens: the item's
`_save_transfer` session, then, when `to_address` is truthy, the item's
`_create_nft_metadata` session. -/
def batchItemTxns (env : LogEnv) (job : LogJob)
    (fromAddress toAddress : Option String) (baseLogIndex : Nat)
    (transactionIndex : Option Nat) (i tokenId amount : Nat) :
    List (List DbWrite) :=
  [save_transfer (batchTransferRow env job fromAddress toAddress
      baseLogIndex transactionIndex i tokenId amount)]
    ++ (if pyTruthy toAddress then
          [create_nft_metadata (pyLower job.address) tokenId
            (pyLower (toAddress.getD "")) job.block_number job.transaction_hash]
        else [])

/-- `LogProcessor._process_erc1155_batch`.  Guards: at least 4 topics, then
the short-data guard on the hex string; `bytes.fromhex` and the ABI decode
raise out of the handler (the `except` re-raises); mismatched array lengths
log and skip the whole event; otherwise the handler loops over
`enumerate(zip(ids, values))` opening the per-item sessions.  The source
parses `transaction_index` inside each `_save_transfer` call; the parse is
deterministic and a failure aborts before any session, so it is hoisted
before the loop. -/
def process_erc1155_batch (env : LogEnv) (job : LogJob) :
    Except String (List (List DbWrite)) :=
  if job.topics.length < 4 then Except.ok []
  else
    match parse_log_index job.log_index with
    | Except.error e => Except.error e
    | Except.ok baseLogIndex =>
      let fromAddress := decode_address (job.topics.getD 2 "")
      let toAddress := decode_address (job.topics.getD 3 "")
      if job.data = "0x" ∨ job.data.data.length < 66 then Except.ok []
      else
        match dataBytes? job.data with
        | none => Except.error "ValueError: non-hexadecimal number found in fromhex() arg"
        | some dataBytesList =>
          match abiDecodeUintArrayPair dataBytesList with
          | none => Except.error "DecodingError: insufficient data"
          | some (ids, vals) =>
            if ids.length ≠ vals.length then Except.ok []
            else
              match parse_int job.transaction_index with
              | Except.error e => Except.error e
              | Except.ok transactionIndex =>
                Except.ok (((ids.zip vals).enum).flatMap
                  (fun q => batchItemTxns env job fromAddress toAddress
                    baseLogIndex transactionIndex q.1 q.2.1 q.2.2))

/-! ### DEX: factory table (dex.py 18-21, 266-280) and the live V2 swap
handler (logprocessor.py 541-605) -/

def UNISWAP_V2_FACTORY : String := "0x5C69bEe701ef814a2B6a3EDD4B1652CB9cc5aA6f"
def UNISWAP_V3_FACTORY : String := "0x1F98431c8aD98523631AE4a59f267346ea31F984"
def SUSHISWAP_FACTORY : String := "0xC0AEe478e3658e2610c5F7A4A2E1777cE9e4f2Ac"

/-- `DexProcessor._get_dex_from_factory` (dex.py 266-280) as a function of
its single declared parameter: falsy input maps to `"unknown"`, otherwise
the lowercased factory address is compared against the known factory
table. -/
def get_dex_from_factory (factoryAddress : Option String) : String :=
  if !(pyTruthy factoryAddress) then "unknown"
  else
    let fl := pyLower (factoryAddress.getD "")
    if fl = pyLower UNISWAP_V2_FACTORY then "uniswap_v2"
    else if fl = pyLower SUSHISWAP_FACTORY then "sushiswap"
    else if fl = pyLower UNISWAP_V3_FACTORY then "uniswap_v3"
    else "unknown"

/-- `_get_dex_from_factory` is declared without `self`, so it has exactly
one positional parameter. -/
def getDexFromFactoryPositionalParams : Nat := 1

/-- `DexProcessor.process_uniswap_v2_swap` (dex.py 67) invokes it as
`self._get_dex_from_factory(factory_address)`: a bound-method call passing
two positional arguments, which raises `TypeError` at runtime. -/
def dexProcessorGetDexCallArgs : Nat := 2

/-- `LogProcessor._process_uniswap_v2_swap`: the handler the dispatcher at
logprocessor.py 96-97 actually runs.  It decodes the four unsigned amounts,
resolves the pool tokens and inserts one `Swap` row whose `dex_name` is the
literal `"uniswap_v2"`; no factory lookup happens on this path.  Decode and
RPC failures are caught and produce no writes. -/
def process_uniswap_v2_swap (env : LogEnv) (job : LogJob) :
    List (List DbWrite) :=
  if job.topics.length < 3 then []
  else
    let poolAddress := job.address
    let sender := "0x" ++ lastChars 40 (job.topics.getD 1 "")
    let recipient := "0x" ++ lastChars 40 (job.topics.getD 2 "")
    if job.data = "" ∨ job.data = "0x" then []
    else
      match dataBytes? job.data with
      | none => []
      | some bs =>
        let amount0In := wordAt bs 0
        let amount1In := wordAt bs 32
        let amount0Out := wordAt bs 64
        let amount1Out := wordAt bs 96
        let (token0, token1) := env.poolTokens poolAddress
        if token0 = "" ∨ token1 = "" then []
        else
          [[DbWrite.insertSwap
            { transaction_hash := job.transaction_hash
              log_index := job.log_index
              block_number := job.block_number
              block_timestamp := parse_timestamp env.now job.block_timestamp
              transaction_index := job.transaction_index
              dex_name := "uniswap_v2"
              pool_address := pyLower poolAddress
              token0_address := pyLower token0
              token1_address := pyLower token1
              amount0_in := toString amount0In
              amount1_in := toString amount1In
              amount0_out := toString amount0Out
              amount1_out := toString amount1Out
              sender := pyLower sender
              recipient := pyLower recipient }]]

/-! ### Log poller (logpoller.py 43-80) -/

/-- A decoded `eth_subscribe("logs")` notification as the poller reads it
(every field via `.get`, so each may be absent). -/
structure WsLogEvent where
  address : Option String
  blockNumber : Option String
  blockHash : Option String
  blockTimestamp : Option String
  data : Option String
  logIndex : Option String
  topics : List String
  transactionHash : Option String
  transactionIndex : Option String
deriving Repr, DecidableEq

/-- The job dict `stream_new_logs` builds (logpoller.py 63-74). -/
structure PollerLogJob where
  job_type : String
  address : Option String
  block_number : Nat
  block_hash : Option String
  block_timestamp : Option String
  data : Option String
  log_index : String
  topics : List String
  transaction_hash : Option String
  transaction_index : Option String
deriving Repr, DecidableEq

/-- `RedisQueueManager.push_json(self, queue_name, job_id, data)` has three
required positional parameters (queue.py 18). -/
def pushJsonRequiredPositional : Nat := 3

/-- `stream_new_logs` calls `self.queue.push_json(self.queue_name, job)`
(logpoller.py 75): two positional arguments. -/
def streamNewLogsSuppliedPositional : Nat := 2

/-- Handling of one subscription message holding a log event: when
`blockNumber` is absent no job is pushed; otherwise the job dict is built
field by field and `push_json` is called with two of its three required
positional arguments, so Python raises `TypeError` before anything reaches
Redis.  The error carries the already-built dict, so the theorems can also
inspect what the poller decoded. -/
def stream_new_logs_handle (ev : WsLogEvent) :
    Except (String × PollerLogJob) (List (String × PollerLogJob)) :=
  match ev.blockNumber with
  | none => Except.ok []
  | some bnHex =>
    match parseHexNat? bnHex with
    | none =>
      Except.error ("ValueError: invalid literal for int() with base 16",
        { job_type := "process_log", address := none, block_number := 0,
          block_hash := none, block_timestamp := none, data := none,
          log_index := "0x0", topics := [], transaction_hash := none,
          transaction_index := none })
    | some blockNumber =>
      let job : PollerLogJob :=
        { job_type := "process_log"
          address := ev.address
          block_number := blockNumber
          block_hash := ev.blockHash
          block_timestamp := ev.blockTimestamp
          data := ev.data
          log_index := ev.logIndex.getD "0x0"
          topics := ev.topics
          transaction_hash := ev.transactionHash
          transaction_index := ev.transactionIndex }
      Except.error
        ("TypeError: push_json() missing 1 required positional argument: data",
          job)

/-- What actually lands on the queue for one event: the `except` clause of
the reconnect loop swallows the `TypeError`, so an error means nothing was
pushed. -/
def stream_new_logs_pushed (ev : WsLogEvent) : List (String × PollerLogJob) :=
  match stream_new_logs_handle ev with
  | Except.ok jobs => jobs
  | Except.error _ => []

/-- The job id the specification prescribes for a log event
(spec section 4.5; the same shape server.py 168 builds during backfill). -/
def specLogJobId (txHash logIndex : String) : String :=
  "log:" ++ txHash ++ ":" ++ logIndex

/-! ### Block processor: order of `AddressStats` upserts inside one
transaction savepoint (processor.py 160-197) -/

/-- The sequence of addresses `process_block` passes to
`_update_address_stats` for one transaction: the sender first (when truthy),
then the receiver (when truthy).  `_update_address_stats` lowercases the
address before emitting its upsert (processor.py 289-290). -/
def process_block_stats_order (fromAddress toAddress : Option String) :
    List String :=
  (if pyTruthy fromAddress then [pyLower (fromAddress.getD "")] else [])
    ++ (if pyTruthy toAddress then [pyLower (toAddress.getD "")] else [])

/-- The sequence of addresses `_save_transfer` passes to
`_update_token_transfer_stats`, read off the writes of one
`save_transfer` session. -/
def statsUpsertAddresses (txn : List DbWrite) : List String :=
  txn.filterMap (fun w =>
    match w with
    | DbWrite.upsertStats a _ _ => some a
    | _ => none)

/-! ### Database semantics: primary-key conflicts and silent rollback
(logprocessor.py 354-415, 494-538) -/

/-- The tables a log handler touches, keyed by their primary keys.
`AddressStats` rows carry the two transfer counters the upsert touches. -/
structure LogDb where
  transfers : List (String × Nat)
  statsSent : List (String × Nat)
  statsReceived : List (String × Nat)
  nft : List ((String × Nat) × String)
  swaps : List (String × JVal)
deriving Repr, DecidableEq

/-- Increment a counter in an association list, inserting at 1 when the
address is new (the `ON CONFLICT` upsert of
`_update_token_transfer_stats`). -/
def bumpCounter (l : List (String × Nat)) (a : String) : List (String × Nat) :=
  match l.lookup a with
  | some n => l.map (fun p => if p.1 = a then (p.1, n + 1) else p)
  | none => (a, 1) :: l

/-- Set the owner of an NFT row, inserting the row when absent
(`_create_nft_metadata`'s query-then-update-or-insert). -/
def setNftOwner (l : List ((String × Nat) × String)) (pk : String × Nat)
    (owner : String) : List ((String × Nat) × String) :=
  match l.lookup pk with
  | some _ => l.map (fun p => if p.1 = pk then (p.1, owner) else p)
  | none => (pk, owner) :: l

/-- Apply one SQL statement; `none` is an `IntegrityError` (primary-key
conflict on a plain insert).  Upserts never conflict. -/
def applyWrite (db : LogDb) : DbWrite → Option LogDb
  | DbWrite.insertTransfer t =>
    if (t.tx_hash, t.log_index) ∈ db.transfers then none
    else some { db with transfers := (t.tx_hash, t.log_index) :: db.transfers }
  | DbWrite.upsertStats a sent _ =>
    if sent then some { db with statsSent := bumpCounter db.statsSent a }
    else some { db with statsReceived := bumpCounter db.statsReceived a }
  | DbWrite.upsertNft tok tid owner _ _ =>
    some { db with nft := setNftOwner db.nft (tok, tid) owner }
  | DbWrite.insertSwap s =>
    if (s.transaction_hash, s.log_index) ∈ db.swaps then none
    else some { db with swaps := (s.transaction_hash, s.log_index) :: db.swaps }

/-- Run the statements of one session front to back. -/
def applyWrites (db : LogDb) : List DbWrite → Option LogDb
  | [] => some db
  | w :: ws =>
    match applyWrite db w with
    | some db1 => applyWrites db1 ws
    | none => none

/-- One handler session: commit on success; on `IntegrityError` the
`except IntegrityError: session.rollback()` clause restores the database
silently. -/
def applyTxn (db : LogDb) (txn : List DbWrite) : LogDb :=
  match applyWrites db txn with
  | some db1 => db1
  | none => db

/-- Unwrap a handler result for inspection; an error opened no session. -/
def exceptTxns (r : Except String (List (List DbWrite))) :
    List (List DbWrite) :=
  match r with
  | Except.ok txns => txns
  | Except.error _ => []

/-- Project the inserted transfer's `log_index` out of one statement. -/
def getTransferLogIndex (w : DbWrite) : Option Nat :=
  match w with
  | DbWrite.insertTransfer t => some t.log_index
  | _ => none

/-- Project an NFT-metadata write out of one statement. -/
def getNftWrite (w : DbWrite) : Option (String × Nat × String) :=
  match w with
  | DbWrite.upsertNft tok tid o _ _ => some (tok, tid, o)
  | _ => none

/-- Project the inserted swap's `dex_name` out of one statement. -/
def getSwapDexName (w : DbWrite) : Option String :=
  match w with
  | DbWrite.insertSwap s => some s.dex_name
  | _ => none

/-- The `log_index` of every transfer inserted across a list of sessions,
in emission order. -/
def transferLogIndices (txns : List (List DbWrite)) : List Nat :=
  (txns.flatMap (fun t => t)).filterMap getTransferLogIndex

/-- The number of transfers inserted across a list of sessions. -/
def transferWriteCount (txns : List (List DbWrite)) : Nat :=
  (transferLogIndices txns).length

/-- The NFT-metadata writes across a list of sessions. -/
def nftWrites (txns : List (List DbWrite)) : List (String × Nat × String) :=
  (txns.flatMap (fun t => t)).filterMap getNftWrite

/-- The number of NFT-metadata writes across a list of sessions. -/
def nftWriteCount (txns : List (List DbWrite)) : Nat :=
  (nftWrites txns).length

/-- The `dex_name` of every swap inserted across a list of sessions. -/
def swapDexNames (txns : List (List DbWrite)) : List String :=
  (txns.flatMap (fun t => t)).filterMap getSwapDexName

/-! ### Idempotence of a `_save_transfer` session under the PK-conflict
rollback policy -/

/-- Statements that can never raise `IntegrityError` and leave the
transfers table untouched. -/
def isStatsWrite : DbWrite → Prop :=
  fun w =>
    match w with
    | DbWrite.upsertStats _ _ _ => True
    | _ => False

theorem mem_statWrite_stats (a : Option String) (s : Bool) (bn : Nat) :
    ∀ w ∈ statWrite a s bn, isStatsWrite w := by
  intro w hw
  cases a with
  | none => simp [statWrite] at hw
  | some x =>
    simp only [statWrite] at hw
    split at hw
    · simp at hw
      subst hw
      trivial
    · simp at hw

theorem applyWrite_stats_preserves (db : LogDb) (w : DbWrite)
    (h : isStatsWrite w) :
    ∃ db', applyWrite db w = some db' ∧ db'.transfers = db.transfers := by
  cases w with
  | upsertStats a sent bn =>
    cases sent with
    | false => exact ⟨_, rfl, rfl⟩
    | true => exact ⟨_, rfl, rfl⟩
  | insertTransfer t => exact h.elim
  | upsertNft tok tid o bn tx => exact h.elim
  | insertSwap s => exact h.elim

theorem applyWrites_stats (ws : List DbWrite)
    (h : ∀ w ∈ ws, isStatsWrite w) :
    ∀ db : LogDb, ∃ db', applyWrites db ws = some db'
      ∧ db'.transfers = db.transfers := by
  induction ws with
  | nil => intro db; exact ⟨db, rfl, rfl⟩
  | cons w ws ih =>
    intro db
    obtain ⟨db1, hw1, ht1⟩ :=
      applyWrite_stats_preserves db w (h w (List.mem_cons_self w ws))
    obtain ⟨db2, hw2, ht2⟩ :=
      ih (fun x hx => h x (List.mem_cons_of_mem w hx)) db1
    refine ⟨db2, ?_, by rw [ht2, ht1]⟩
    simp [applyWrites, hw1, hw2]

/-- Re-applying a `_save_transfer` session is a no-op: when the transfer's
primary key already exists the insert raises `IntegrityError` and the whole
session (stats included) rolls back, so the database is unchanged. -/
theorem applyTxn_save_transfer_idem (db : LogDb) (t : TransferRow) :
    applyTxn (applyTxn db (save_transfer t)) (save_transfer t)
      = applyTxn db (save_transfer t) := by
  have hstats : ∀ w ∈ statWrite t.from_address true t.block_number
      ++ statWrite t.to_address false t.block_number, isStatsWrite w := by
    intro w hw
    rcases List.mem_append.mp hw with h | h
    · exact mem_statWrite_stats _ _ _ w h
    · exact mem_statWrite_stats _ _ _ w h
  by_cases hmem : (t.tx_hash, t.log_index) ∈ db.transfers
  · have h1 : applyWrites db (save_transfer t) = none := by
      simp [save_transfer, applyWrites, applyWrite, hmem]
    have hfix : applyTxn db (save_transfer t) = db := by
      simp [applyTxn, h1]
    rw [hfix]
    exact hfix
  · have h1 : applyWrite db (DbWrite.insertTransfer t)
        = some { db with transfers := (t.tx_hash, t.log_index) :: db.transfers } := by
      simp [applyWrite, hmem]
    obtain ⟨db2, hw2, ht2⟩ := applyWrites_stats _ hstats
      { db with transfers := (t.tx_hash, t.log_index) :: db.transfers }
    have happ : applyWrites db (save_transfer t) = some db2 := by
      simp [save_transfer, applyWrites, h1, hw2]
    have hA : applyTxn db (save_transfer t) = db2 := by
      simp [applyTxn, happ]
    have hmem2 : (t.tx_hash, t.log_index) ∈ db2.transfers := by
      rw [ht2]
      exact List.mem_cons_self _ _
    have h2 : applyWrites db2 (save_transfer t) = none := by
      simp [save_transfer, applyWrites, applyWrite, hmem2]
    have hB : applyTxn db2 (save_transfer t) = db2 := by
      simp [applyTxn, h2]
    rw [hA, hB]

/-! ### Event signature constants (logprocessor.py 27-34, dex.py 9-16) -/

def TRANSFER_EVENT_SIGNATURE : String :=
  "0xddf252ad1be2c89b69c2b068fc378daa952ba7f163c4a11628f55a4df523b3ef"
def ERC1155_TRANSFER_BATCH : String :=
  "0x4a39dc06d4c0dbc64b70af90fd698a233a518aa5d07e595d983b8c0526c8f7fb"
def UNISWAP_V2_SWAP_SIGNATURE : String :=
  "0xd78ad95fa46c994b6551d0da85fc275fe613ce37657fb8d5e3d130840159d822"

/-! ### Concrete fixtures used by the claim theorems -/

/-- A token-metadata / pool environment with deterministic answers. -/
def testEnv : LogEnv :=
  { tokenMeta := fun _ _ => (some "TOK", some 18)
    poolTokens := fun _ => ("0xAb5801a7D398351b8bE11C439e05C5b3259aec9B",
      "0xC02aaA39b223FE8D0A0e5C4F27eAD9083C756Cc2")
    poolFactory := fun _ => some SUSHISWAP_FACTORY
    now := 1700000000 }

/-- 32-byte words as 64 hex characters. -/
def HEXW0 : String :=
  "0000000000000000000000000000000000000000000000000000000000000000"
def HEXW1 : String :=
  "0000000000000000000000000000000000000000000000000000000000000001"
def HEXW2 : String :=
  "0000000000000000000000000000000000000000000000000000000000000002"
def HEXW3 : String :=
  "0000000000000000000000000000000000000000000000000000000000000003"
def HEXW7 : String :=
  "0000000000000000000000000000000000000000000000000000000000000007"
def HEXW8 : String :=
  "0000000000000000000000000000000000000000000000000000000000000008"
def HEXW40 : String :=
  "0000000000000000000000000000000000000000000000000000000000000040"
def HEXWA0 : String :=
  "00000000000000000000000000000000000000000000000000000000000000a0"

/-- A 32-byte topic holding address `0x…01`. -/
def TOPIC_ADDR1 : String :=
  "0x0000000000000000000000000000000000000000000000000000000000000001"
/-- A 32-byte topic holding address `0x…02`. -/
def TOPIC_ADDR2 : String :=
  "0x0000000000000000000000000000000000000000000000000000000000000002"
/-- A 32-byte topic holding token id 5. -/
def TOPIC_TOKEN5 : String :=
  "0x0000000000000000000000000000000000000000000000000000000000000005"

/-- An ERC-20 Transfer log job (3 topics, amount 10 in `data`). -/
def erc20Job : LogJob :=
  { address := "0xToken"
    block_number := 100
    block_hash := "0xblockhash"
    block_timestamp := JVal.str "0x12345"
    data := "0x000000000000000000000000000000000000000000000000000000000000000a"
    log_index := JVal.str "0x1"
    topics := [TRANSFER_EVENT_SIGNATURE, TOPIC_ADDR1, TOPIC_ADDR2]
    transaction_hash := "0xTx"
    transaction_index := JVal.num 0 }

/-- An ERC-721 Transfer log job (4 topics, token id in `topics[3]`). -/
def erc721Job : LogJob :=
  { address := "0xNftToken"
    block_number := 100
    block_hash := "0xblockhash"
    block_timestamp := JVal.num 1699999999
    data := "0x"
    log_index := JVal.num 7
    topics := [TRANSFER_EVENT_SIGNATURE, TOPIC_ADDR1, TOPIC_ADDR2, TOPIC_TOKEN5]
    transaction_hash := "0xTx721"
    transaction_index := JVal.num 3 }

/-- The ERC-1155 TransferBatch job of spec scenario S4:
`ids=[7,8]`, `values=[2,3]`, `log_index=5`.  The data payload is the
canonical ABI encoding of `(uint256[] ids, uint256[] values)`: offsets
`0x40` and `0xa0`, then each length-prefixed array. -/
def batchJob : LogJob :=
  { address := "0xBatchToken"
    block_number := 100
    block_hash := "0xblockhash"
    block_timestamp := JVal.num 1699999999
    data := "0x" ++ HEXW40 ++ HEXWA0 ++ HEXW2 ++ HEXW7 ++ HEXW8
      ++ HEXW2 ++ HEXW2 ++ HEXW3
    log_index := JVal.num 5
    topics := [ERC1155_TRANSFER_BATCH, TOPIC_ADDR1, TOPIC_ADDR1, TOPIC_ADDR2]
    transaction_hash := "0xTxBatch"
    transaction_index := JVal.num 2 }

/-- The bytes `bytes.fromhex` produces for `batchJob.data`. -/
def batchBytes : List Nat :=
  List.replicate 31 0 ++ [64] ++ List.replicate 31 0 ++ [160]
    ++ List.replicate 31 0 ++ [2] ++ List.replicate 31 0 ++ [7]
    ++ List.replicate 31 0 ++ [8] ++ List.replicate 31 0 ++ [2]
    ++ List.replicate 31 0 ++ [2] ++ List.replicate 31 0 ++ [3]

/-- A V2-signature swap job: `amount0In=0, amount1In=1, amount0Out=0,
amount1Out=2`, as in the repository's own DEX test. -/
def v2SwapJob : LogJob :=
  { address := "0xSushiPool"
    block_number := 100
    block_hash := "0xblockhash"
    block_timestamp := JVal.str "0x1234567890"
    data := "0x" ++ HEXW0 ++ HEXW1 ++ HEXW0 ++ HEXW2
    log_index := JVal.str "0x1"
    topics := [UNISWAP_V2_SWAP_SIGNATURE, TOPIC_ADDR1, TOPIC_ADDR2]
    transaction_hash := "0xTxSwap"
    transaction_index := JVal.str "0x1" }

/-- Two stats addresses with `addrA < addrB` lexicographically, as in the
repository's own deadlock-prevention test. -/
def addrA : String := "0x000000000000000000000000000000000000000a"
def addrB : String := "0x000000000000000000000000000000000000000b"

/-- A transfer whose sender is `addrB` and receiver `addrA`. -/
def transferBtoA : TransferRow :=
  { tx_hash := "0xTx"
    log_index := 1
    transaction_index := some 0
    block_number := 100
    block_hash := "0xblockhash"
    block_timestamp := 1700000000
    token_address := "0xtoken"
    token_type := "erc20"
    token_symbol := some "TOK"
    token_decimals := some 18
    token_id := none
    from_address := some addrB
    to_address := some addrA
    amount := 10
    normalized_amount := none
    raw_log := erc20Job }

/-- A decoded WebSocket log notification as the log poller receives it. -/
def wsEventFixture : WsLogEvent :=
  { address := some "0xToken"
    blockNumber := some "0x10"
    blockHash := some "0xblockhash"
    blockTimestamp := some "0x65000000"
    data := some "0x0a"
    logIndex := some "0x1"
    topics := [TRANSFER_EVENT_SIGNATURE, TOPIC_ADDR1, TOPIC_ADDR2]
    transactionHash := some "0xabc"
    transactionIndex := some "0x0" }

/-- The EIP-1559 capped transaction of the repository's own
`test_parse_eip1559_transaction_capped`: `maxFee=120`, `maxPriority=10`,
processed under `base_fee=150`. -/
def txCapped : TxData :=
  { hash := "0xEIP1559Hash"
    from_address := some "0xSender"
    to_address := some "0xReceiver"
    value := some 0
    gas := some 21000
    gasPrice := some 105
    input := some "0x"
    txnType := some 2
    maxFeePerGas := some 120
    maxPriorityFeePerGas := some 10 }

/-! ### Facts about the batch handler's loop, for claim C8 -/

theorem hexPairsToBytes_length :
    ∀ (bs : List Nat) (l : List Char),
      hexPairsToBytes l = some bs → l.length = 2 * bs.length := by
  intro bs
  induction bs with
  | nil =>
    intro l h
    match l with
    | [] => rfl
    | [c] => simp [hexPairsToBytes] at h
    | c1 :: c2 :: rest =>
      exfalso
      cases h1 : hexDigitVal? c1 <;> cases h2 : hexDigitVal? c2
        <;> cases h3 : hexPairsToBytes rest
        <;> simp [hexPairsToBytes, h1, h2, h3] at h
  | cons b bs ih =>
    intro l h
    match l with
    | [] => simp [hexPairsToBytes] at h
    | [c] => simp [hexPairsToBytes] at h
    | c1 :: c2 :: rest =>
      cases h1 : hexDigitVal? c1 <;> cases h2 : hexDigitVal? c2
        <;> cases h3 : hexPairsToBytes rest
        <;> simp [hexPairsToBytes, h1, h2, h3] at h
      obtain ⟨hb, hbs⟩ := h
      have hlen := ih rest (by rw [h3, hbs])
      simp [List.length_cons, hlen]
      omega

theorem transferLogIndices_append (a b : List (List DbWrite)) :
    transferLogIndices (a ++ b)
      = transferLogIndices a ++ transferLogIndices b := by
  simp [transferLogIndices, List.flatMap_append, List.filterMap_append]

theorem nftWrites_append (a b : List (List DbWrite)) :
    nftWrites (a ++ b) = nftWrites a ++ nftWrites b := by
  simp [nftWrites, List.flatMap_append, List.filterMap_append]

theorem filterMap_transfer_statWrite (a : Option String) (s : Bool) (bn : Nat) :
    (statWrite a s bn).filterMap getTransferLogIndex = [] := by
  cases a with
  | none => rfl
  | some x =>
    simp only [statWrite]
    split
    · rfl
    · rfl

theorem filterMap_nft_statWrite (a : Option String) (s : Bool) (bn : Nat) :
    (statWrite a s bn).filterMap getNftWrite = [] := by
  cases a with
  | none => rfl
  | some x =>
    simp only [statWrite]
    split
    · rfl
    · rfl

theorem transferLogIndices_single_save (t : TransferRow) :
    transferLogIndices [save_transfer t] = [t.log_index] := by
  simp [transferLogIndices, save_transfer, List.filterMap_append,
    filterMap_transfer_statWrite, getTransferLogIndex]

theorem nftWrites_single_save (t : TransferRow) :
    nftWrites [save_transfer t] = [] := by
  simp [nftWrites, save_transfer, List.filterMap_append,
    filterMap_nft_statWrite, getNftWrite]

theorem batchItem_transferLogIndices (env : LogEnv) (job : LogJob)
    (f toA : Option String) (base : Nat) (ti : Option Nat)
    (i tid amt : Nat) :
    transferLogIndices (batchItemTxns env job f toA base ti i tid amt)
      = [base * 1000 + i] := by
  unfold batchItemTxns
  rw [transferLogIndices_append, transferLogIndices_single_save]
  have h2 : transferLogIndices
      (if pyTruthy toA then
        [create_nft_metadata (pyLower job.address) tid
          (pyLower (toA.getD "")) job.block_number job.transaction_hash]
      else []) = [] := by
    split
    · rfl
    · rfl
  rw [h2]
  simp [batchTransferRow]

theorem batchItem_nftWrites (env : LogEnv) (job : LogJob)
    (f toA : Option String) (base : Nat) (ti : Option Nat)
    (i tid amt : Nat) (hto : pyTruthy toA = true) :
    (nftWrites (batchItemTxns env job f toA base ti i tid amt)).length = 1 := by
  unfold batchItemTxns
  rw [nftWrites_append, nftWrites_single_save, hto]
  rfl

theorem batch_loop_indices (env : LogEnv) (job : LogJob)
    (f toA : Option String) (base : Nat) (ti : Option Nat) :
    ∀ (ps : List (Nat × Nat)) (s : Nat),
      transferLogIndices ((List.enumFrom s ps).flatMap
        (fun q => batchItemTxns env job f toA base ti q.1 q.2.1 q.2.2))
        = (List.range' s ps.length).map (fun i => base * 1000 + i) := by
  intro ps
  induction ps with
  | nil => intro s; rfl
  | cons p ps ih =>
    intro s
    show transferLogIndices
        (batchItemTxns env job f toA base ti s p.1 p.2
          ++ (List.enumFrom (s + 1) ps).flatMap
            (fun q => batchItemTxns env job f toA base ti q.1 q.2.1 q.2.2)) = _
    rw [transferLogIndices_append, batchItem_transferLogIndices, ih (s + 1)]
    rfl

theorem batch_loop_nfts (env : LogEnv) (job : LogJob)
    (f toA : Option String) (base : Nat) (ti : Option Nat)
    (hto : pyTruthy toA = true) :
    ∀ (ps : List (Nat × Nat)) (s : Nat),
      (nftWrites ((List.enumFrom s ps).flatMap
        (fun q => batchItemTxns env job f toA base ti q.1 q.2.1 q.2.2))).length
        = ps.length := by
  intro ps
  induction ps with
  | nil => intro s; rfl
  | cons p ps ih =>
    intro s
    show (nftWrites
        (batchItemTxns env job f toA base ti s p.1 p.2
          ++ (List.enumFrom (s + 1) ps).flatMap
            (fun q => batchItemTxns env job f toA base ti q.1 q.2.1 q.2.2))).length = _
    rw [nftWrites_append]
    rw [List.length_append, batchItem_nftWrites env job f toA base ti s p.1 p.2 hto,
      ih (s + 1), List.length_cons]
    omega

theorem pyTruthy_decode_address (topic : String)
    (h : 42 ≤ topic.data.length) :
    pyTruthy (decode_address topic) = true := by
  unfold decode_address
  rw [if_neg (by omega)]
  unfold pyTruthy
  simp only [Bool.not_eq_true']
  rw [decide_eq_false_iff_not]
  intro hc
  have hlen := congrArg (fun s : String => s.data.length) hc
  dsimp at hlen
  rw [String.length_append] at hlen
  have h2 : ("0x" : String).length = 2 := rfl
  omega

/-! ## Claim theorems -/

/-- C10: for every transaction the block processor writes, the `gas_used`
column holds the transaction object's `gas` field (the gas limit); the
receipt's consumed gas is not an input of `_parse_transaction` at all. -/
theorem gas_used_is_gas_limit (ethPrice : Option ℚ) (tx : TxData)
    (blockNumber : Nat) (blockHash : String) (blockTs : Nat) :
    (parse_transaction ethPrice tx blockNumber blockHash blockTs).gas_used
      = tx.gas := rfl

/-- C1: the specification's effective gas price for the capped EIP-1559
transaction is 120, but `_parse_transaction` reads none of `type`,
`maxFeePerGas` or `maxPriorityFeePerGas` - the stored row is identical
whatever their values - and the `Transaction` model stores only
`gas_price` (here 105).  No effective gas price is ever computed or
stored. -/
theorem effective_gas_price_not_stored :
    specEffectiveGasPrice 150 txCapped = 120
    ∧ (∀ (mf mp ty : Option Nat),
        parse_transaction none
          { txCapped with
            maxFeePerGas := mf
            maxPriorityFeePerGas := mp
            txnType := ty } 100 "0xblockhash" 1234
          = parse_transaction none txCapped 100 "0xblockhash" 1234)
    ∧ (parse_transaction none txCapped 100 "0xblockhash" 1234).gas_price = 105
    ∧ specEffectiveGasPrice 150 { txCapped with maxFeePerGas := some 500 }
        = 160 := by
  exact ⟨rfl, fun mf mp ty => rfl, rfl, rfl⟩

/-- C7: for a dequeued block job whose `Block` row exists, a fetched hash
different from the job's hash rewrites the row's hash to the fetched one,
sets `canonical`, and prints the reorg warning; a matching hash sets
`canonical` and warns nothing. -/
theorem reorg_canonicality (jobHash actualHash : String) (r : BlockRecord) :
    (actualHash ≠ jobHash →
      process_block_canonical jobHash actualHash (some r) =
        { record := some { r with block_hash := actualHash, canonical := true }
          blockHashVar := actualHash
          reorgWarning := true })
    ∧ (actualHash = jobHash →
      process_block_canonical jobHash actualHash (some r) =
        { record := some { r with canonical := true }
          blockHashVar := jobHash
          reorgWarning := false }) := by
  constructor
  · intro h
    simp [process_block_canonical, h]
  · intro h
    simp [process_block_canonical, h]

/-- C7 witness: scenario S6, a job submitted with hash `0xaaa` while the
node returns `0xbbb`, and the matching case. -/
theorem reorg_canonicality_witness :
    process_block_canonical "0xaaa" "0xbbb"
        (some { block_number := 100, block_hash := "0xaaa", canonical := false })
      = { record := some { block_number := 100, block_hash := "0xbbb", canonical := true }
          blockHashVar := "0xbbb"
          reorgWarning := true }
    ∧ process_block_canonical "0xccc" "0xccc"
        (some { block_number := 7, block_hash := "0xccc", canonical := false })
      = { record := some { block_number := 7, block_hash := "0xccc", canonical := true }
          blockHashVar := "0xccc"
          reorgWarning := false } :=
  ⟨(reorg_canonicality "0xaaa" "0xbbb" _).1 (by decide),
   (reorg_canonicality "0xccc" "0xccc" _).2 rfl⟩

/-- C3: after a retrying block job is processed successfully, the
dead-letter row is NOT removed: `run` calls `remove_failed_job`, a method
`FailedJobManager` does not define, so the `AttributeError` falls into the
failure branch, whose re-insert hits the unique `job_id` constraint and
logs CRITICAL; the `FailedJob` row for the job survives. -/
theorem retry_success_leaves_dead_letter_row :
    (run_retry_success "block:100" ["block:100"]).failedJobs = ["block:100"]
    ∧ (run_retry_success "block:100" ["block:100"]).attributeErrorRaised = true
    ∧ (run_retry_success "block:100" ["block:100"]).criticalLogged = true
    ∧ "remove_failed_job" ∉ failedJobManagerMethods
    ∧ "remove_failed_block_record" ∈ failedJobManagerMethods := by
  refine ⟨rfl, rfl, rfl, by decide, by decide⟩

/-- C9: a queue pop whose payload key is absent does not return
`(job_id, none)`: `bl_pop_block` and `bl_pop_log` hand `None` straight to
`json.loads`, which raises `TypeError`. -/
theorem pop_expired_payload_raises :
    bl_pop_block (some "block:1") (fun _ => none)
      = Except.error "TypeError: the JSON object must be of type str, bytes or bytearray, not NoneType"
    ∧ bl_pop_log (some "log:0xabc:0x1") (fun _ => none)
      = Except.error "TypeError: the JSON object must be of type str, bytes or bytearray, not NoneType"
    ∧ ∀ (payload : Option String),
        bl_pop_block (some "block:1") (fun _ => none)
          ≠ Except.ok (some "block:1", payload) := by
  refine ⟨rfl, rfl, ?_⟩
  intro payload h
  simp [bl_pop_block, json_loads] at h

/-- C2: the `AddressStats` upserts of one transaction are issued in
sender-then-receiver order, not in lexicographic order: for a transfer from
`addrB` to `addrA` (with `addrA < addrB`) both `_save_transfer` and
`process_block` emit `[addrB, addrA]`. -/
theorem stats_upserts_not_lexicographic :
    statsUpsertAddresses (save_transfer transferBtoA) = [addrB, addrA]
    ∧ pyStrLt addrA addrB = true
    ∧ process_block_stats_order (some addrB) (some addrA) = [addrB, addrA] := by
  refine ⟨by decide, by decide, by decide⟩

/-- C4: the log poller never pushes the `log:<tx_hash>:<log_index>` job the
spec prescribes: `stream_new_logs` decodes the event and builds the full
job dict, then passes two positional arguments to the three-parameter
`push_json`, so every received event raises `TypeError` (swallowed by the
reconnect loop) and nothing reaches the queue. -/
theorem log_poller_push_type_error :
    streamNewLogsSuppliedPositional < pushJsonRequiredPositional
    ∧ stream_new_logs_handle wsEventFixture
      = Except.error
        ("TypeError: push_json() missing 1 required positional argument: data",
          { job_type := "process_log"
            address := some "0xToken"
            block_number := 16
            block_hash := some "0xblockhash"
            block_timestamp := some "0x65000000"
            data := some "0x0a"
            log_index := "0x1"
            topics := [TRANSFER_EVENT_SIGNATURE, TOPIC_ADDR1, TOPIC_ADDR2]
            transaction_hash := some "0xabc"
            transaction_index := some "0x0" })
    ∧ stream_new_logs_pushed wsEventFixture = []
    ∧ specLogJobId "0xabc" "0x1" = "log:0xabc:0x1" := by
  refine ⟨by decide, rfl, rfl, rfl⟩

/-- C6: the handler the dispatcher actually runs stores
`dex_name="uniswap_v2"` for every V2-signature swap, even when the pool's
`factory()` is the SushiSwap factory, for which the factory table of
`dex.py` answers `"sushiswap"`; moreover the `DexProcessor` path would pass
two arguments to the one-parameter `_get_dex_from_factory` (declared
without `self`), a `TypeError`. -/
theorem v2_swap_dex_name_hardcoded :
    swapDexNames (process_uniswap_v2_swap testEnv v2SwapJob) = ["uniswap_v2"]
    ∧ testEnv.poolFactory v2SwapJob.address = some SUSHISWAP_FACTORY
    ∧ get_dex_from_factory (testEnv.poolFactory v2SwapJob.address) = "sushiswap"
    ∧ "uniswap_v2" ≠ "sushiswap"
    ∧ dexProcessorGetDexCallArgs ≠ getDexFromFactoryPositionalParams := by
  refine ⟨by decide, rfl, by decide, by decide, by decide⟩

/-- C5 counterexample: the ERC-721 transfer handler does not perform its
database writes inside one transaction - on a 4-topic Transfer job it opens
two sessions, the `_save_transfer` one and the `_create_nft_metadata`
one. -/
theorem handler_not_single_transaction :
    (exceptTxns (process_erc20_or_erc721_transfer testEnv erc721Job)).length = 2
    ∧ ¬((exceptTxns (process_erc20_or_erc721_transfer testEnv erc721Job)).length
        ≤ 1) := by
  refine ⟨by decide, by decide⟩

/-- C8: a TransferBatch event with at least 4 topics, a well-formed
`topics[3]`, and data that ABI-decodes to `(ids, values)` produces, when the
lengths agree, one transfer per index `i` with synthetic
`log_index = base · 1000 + i` and one NFT-metadata stub per token; when the
lengths disagree the whole event is skipped with no writes. -/
theorem erc1155_batch_rows (env : LogEnv) (job : LogJob) (bs : List Nat)
    (ids vals : List Nat) (base : Nat) (txIdx : Option Nat)
    (htop : 4 ≤ job.topics.length)
    (hbase : parse_log_index job.log_index = Except.ok base)
    (htix : parse_int job.transaction_index = Except.ok txIdx)
    (hbytes : dataBytes? job.data = some bs)
    (habi : abiDecodeUintArrayPair bs = some (ids, vals))
    (htopic3 : 42 ≤ (job.topics.getD 3 "").data.length) :
    (ids.length = vals.length →
      Except.isOk (process_erc1155_batch env job) = true
      ∧ transferLogIndices (exceptTxns (process_erc1155_batch env job))
          = (List.range ids.length).map (fun i => base * 1000 + i)
      ∧ nftWriteCount (exceptTxns (process_erc1155_batch env job))
          = ids.length)
    ∧ (ids.length ≠ vals.length →
        process_erc1155_batch env job = Except.ok []) := by
  have h64 : 64 ≤ bs.length := by
    by_contra hlt
    push_neg at hlt
    have hw : readWord? bs 32 = none := by
      unfold readWord?
      rw [if_neg]
      omega
    cases h0 : readWord? bs 0 <;> simp [abiDecodeUintArrayPair, h0, hw] at habi
  have hdl : job.data.data.length - 2 = 2 * bs.length := by
    have hlen := hexPairsToBytes_length bs (job.data.data.drop 2) hbytes
    rw [List.length_drop] at hlen
    exact hlen
  have hglen : ¬(job.data.data.length < 66) := by omega
  have hne0x : job.data ≠ "0x" := by
    intro hq
    apply hglen
    rw [hq]
    have h2 : ("0x" : String).data.length = 2 := rfl
    omega
  have hguard : ¬(job.data = "0x" ∨ job.data.data.length < 66) := by
    rintro (hg | hg)
    · exact hne0x hg
    · exact hglen hg
  have hguardL : ¬(job.data = "0x" ∨ job.data.length < 66) := by
    have hsl : job.data.length = job.data.data.length := rfl
    rintro (hg | hg)
    · exact hne0x hg
    · rw [hsl] at hg
      exact hglen hg
  have h4 : ¬(job.topics.length < 4) := by omega
  have hto : pyTruthy (decode_address (job.topics.getD 3 "")) = true :=
    pyTruthy_decode_address _ htopic3
  constructor
  · intro heq
    have hnne : ¬(ids.length ≠ vals.length) := fun hcon => hcon heq
    have hres : process_erc1155_batch env job
        = Except.ok ((ids.zip vals).enum.flatMap
            (fun q => batchItemTxns env job
              (decode_address (job.topics.getD 2 ""))
              (decode_address (job.topics.getD 3 ""))
              base txIdx q.1 q.2.1 q.2.2)) := by
      simp [process_erc1155_batch, hbase, hbytes, habi, htix, h4, hguard,
        hguardL, hnne]
    refine ⟨?_, ?_, ?_⟩
    · rw [hres]
      rfl
    · rw [hres]
      show transferLogIndices ((List.enumFrom 0 (ids.zip vals)).flatMap
        (fun q => batchItemTxns env job
          (decode_address (job.topics.getD 2 ""))
          (decode_address (job.topics.getD 3 ""))
          base txIdx q.1 q.2.1 q.2.2)) = _
      rw [batch_loop_indices, List.length_zip, heq, Nat.min_self,
        List.range_eq_range']
    · rw [hres]
      show (nftWrites ((List.enumFrom 0 (ids.zip vals)).flatMap
        (fun q => batchItemTxns env job
          (decode_address (job.topics.getD 2 ""))
          (decode_address (job.topics.getD 3 ""))
          base txIdx q.1 q.2.1 q.2.2))).length = _
      rw [batch_loop_nfts env job
        (decode_address (job.topics.getD 2 ""))
        (decode_address (job.topics.getD 3 ""))
        base txIdx hto, List.length_zip, heq, Nat.min_self]
  · intro hne
    simp [process_erc1155_batch, hbase, hbytes, habi, h4, hguard, hguardL, hne]

set_option maxRecDepth 40000 in
/-- C8 witness: the S4 scenario, `ids=[7,8]`, `values=[2,3]` at
`log_index=5`: two transfers with synthetic indices 5000 and 5001 and two
NFT-metadata stubs. -/
theorem erc1155_batch_rows_witness :
    Except.isOk (process_erc1155_batch testEnv batchJob) = true
    ∧ transferLogIndices (exceptTxns (process_erc1155_batch testEnv batchJob))
        = [5000, 5001]
    ∧ nftWriteCount (exceptTxns (process_erc1155_batch testEnv batchJob)) = 2 := by
  have h := (erc1155_batch_rows testEnv batchJob batchBytes [7, 8] [2, 3] 5
    (some 2) (by decide) rfl rfl (by decide) (by decide)
    (by decide)).1 rfl
  obtain ⟨h1, h2, h3⟩ := h
  exact ⟨h1, by rw [h2]; rfl, h3⟩

/-- C5 amended: each write group runs in its own transaction - an ERC-20
transfer job yields exactly one session, an ERC-721 job two (transfer plus
NFT metadata) - and re-applying a `_save_transfer` session is a silent
no-op because the primary-key `IntegrityError` rolls the session back. -/
theorem handler_write_groups_idempotent :
    (∀ (db : LogDb) (t : TransferRow),
      applyTxn (applyTxn db (save_transfer t)) (save_transfer t)
        = applyTxn db (save_transfer t))
    ∧ (exceptTxns (process_erc20_or_erc721_transfer testEnv erc20Job)).length = 1
    ∧ (exceptTxns (process_erc20_or_erc721_transfer testEnv erc721Job)).length
        = 2 := by
  refine ⟨applyTxn_save_transfer_idem, by decide, by decide⟩

end Shafika
